import Mathlib

/-
Verification development for the Halo-Docs-AI asynchronous task engine and
AI-model routing/fallback layer.

The definitions below are a shallow embedding of the Python source:
  * apps/api/services/gemini_service.py — TaskType, GeminiModelConfig
    (MODELS, FALLBACK_ORDER, get_best_model), GeminiService.generate and
    GeminiService._fallback_generate,
  * apps/api/tasks.py — update_task_status and run_resume_optimization,
  * apps/api/routers/task_status.py — get_task_status and list_user_tasks,
  * apps/api/models.py — TaskStatus and ProcessingTask.

External collaborators (the Gemini SDK, S3, pdfplumber, the SMTP sender, the
SQL database) are modelled as explicit inputs: per-model call behaviours,
Except-valued collaborator outcomes, and an in-memory list of task records.
-/

set_option autoImplicit false

/-- Task types for model selection (enum TaskType in gemini_service.py). -/
inductive TaskType where
  | chat_simple
  | chat_complex
  | summarization
  | translation
  | rewriting
  | insights
  | document_analysis
  | image_analysis
  | image_generation
  | video_analysis
  | code_generation
  | creative
  deriving DecidableEq, BEq, Repr

/-- Reasoning tier strings used in the MODELS table ("light" < "medium" <
"high" < "highest" in the spec's ordering). -/
inductive Reasoning where
  | light
  | medium
  | high
  | highest
  deriving DecidableEq, BEq, Repr

/-- One entry of GeminiModelConfig.MODELS (a dict value in the source). -/
structure ModelConfig where
  name : String
  supports_vision : Bool
  supports_streaming : Bool
  max_tokens : Nat
  speed : String
  reasoning : Reasoning
  best_for : List TaskType
  deriving DecidableEq, Repr

instance : Inhabited ModelConfig :=
  ⟨{ name := "", supports_vision := false, supports_streaming := false,
     max_tokens := 0, speed := "", reasoning := .light, best_for := [] }⟩

namespace GeminiModelConfig

/-- GeminiModelConfig.MODELS: the six registry entries, in dict insertion
order (Python dicts iterate in insertion order). -/
def MODELS : List ModelConfig :=
  [ { name := "gemini-2.0-flash-exp", supports_vision := true,
      supports_streaming := true, max_tokens := 8192, speed := "fast",
      reasoning := .medium,
      best_for := [.chat_simple, .translation, .rewriting] },
    { name := "gemini-1.5-flash", supports_vision := true,
      supports_streaming := true, max_tokens := 8192, speed := "fast",
      reasoning := .medium,
      best_for := [.chat_simple, .translation, .rewriting] },
    { name := "gemini-1.5-flash-8b", supports_vision := true,
      supports_streaming := true, max_tokens := 8192, speed := "fastest",
      reasoning := .light,
      best_for := [.chat_simple, .translation] },
    { name := "gemini-1.5-pro", supports_vision := true,
      supports_streaming := true, max_tokens := 8192, speed := "medium",
      reasoning := .high,
      best_for := [.chat_complex, .summarization, .insights, .document_analysis] },
    { name := "gemini-pro-vision", supports_vision := true,
      supports_streaming := true, max_tokens := 4096, speed := "medium",
      reasoning := .high,
      best_for := [.image_analysis] },
    { name := "gemini-exp-1206", supports_vision := true,
      supports_streaming := true, max_tokens := 8192, speed := "medium",
      reasoning := .highest,
      best_for := [.chat_complex, .insights, .code_generation, .creative] } ]

/-- GeminiModelConfig.FALLBACK_ORDER: model priority for fallback. -/
def FALLBACK_ORDER : List String :=
  [ "gemini-2.0-flash-exp",
    "gemini-1.5-pro",
    "gemini-1.5-flash",
    "gemini-1.5-flash-8b" ]

/-- The filter loop of get_best_model: keep registry entries whose best_for
contains the task type, dropping vision-incapable entries when vision is
required (source lines 120-126). -/
def suitableModels (task_type : TaskType) (requires_vision : Bool) : List ModelConfig :=
  MODELS.filter fun c =>
    !(requires_vision && !c.supports_vision) && c.best_for.contains task_type

/-- The fallback loop of get_best_model (source lines 128-135): walk
FALLBACK_ORDER, skip names missing from MODELS and vision-incapable entries
when vision is required, and return the first survivor. -/
def firstSurvivingFallback (requires_vision : Bool) : List String → Option String
  | [] => none
  | m :: rest =>
    match MODELS.find? (fun c => c.name = m) with
    | none => firstSurvivingFallback requires_vision rest
    | some c =>
      if requires_vision && !c.supports_vision then
        firstSurvivingFallback requires_vision rest
      else
        some m

/-- GeminiModelConfig.get_best_model (source lines 111-145), translated
branch by branch: image-generation hard override, affinity/vision filter,
fallback loop when no model matches, the input-length > 10000 preference for
the first "high"/"highest" reasoning entry, and the final
first-suitable-or-default return. -/
def get_best_model (task_type : TaskType) (requires_vision : Bool)
    (input_length : Nat) : String :=
  if task_type = .image_generation then
    "gemini-2.0-flash-exp"
  else
    let suitable := suitableModels task_type requires_vision
    match (if suitable.isEmpty then firstSurvivingFallback requires_vision FALLBACK_ORDER else none) with
    | some m => m
    | none =>
      match (if input_length > 10000 then
               suitable.find? (fun c => c.reasoning = .high ∨ c.reasoning = .highest)
             else none) with
      | some c => c.name
      | none =>
        match suitable with
        | [] => "gemini-1.5-flash"
        | c :: _ => c.name

end GeminiModelConfig

/-- Numeric rank of the spec's ordered reasoning tiers
(light < medium < high < highest). -/
def tierRank : Reasoning → Nat
  | .light => 0
  | .medium => 1
  | .high => 2
  | .highest => 3

/-- Backend response as observed by GeminiService.generate: the text and the
finish reason of the first candidate, when any (response.candidates and
candidates[0].finish_reason collapse to an optional non-empty reason). -/
structure Resp where
  text : String
  finish_reason : Option String
  deriving DecidableEq, Repr

/-- Result of one model.generate_content call: a response, or a raised
exception carrying its message string. -/
inductive Outcome where
  | ok (r : Resp)
  | exn (e : String)
  deriving DecidableEq, Repr

/-- A backend behaviour assigns to each model name the outcome of calling it
with the fixed content of the current request. -/
def Behaviour : Type := String → Outcome

/-- Whether a model call satisfies the source's success test
`if response and response.text` (a raised exception never does). -/
def succeedsB (behave : Behaviour) (m : String) : Bool :=
  match behave m with
  | .ok r => r.text ≠ ""
  | .exn _ => false

/-- The loop of GeminiService._fallback_generate (source lines 278-292),
instrumented: walking the given model list in order, it returns the list of
models actually attempted and the first non-empty response text, if any.
A raised exception or an empty text moves on to the next model. -/
def fallbackRun (behave : Behaviour) : List String → List String × Option String
  | [] => ([], none)
  | m :: rest =>
    match behave m with
    | .ok r =>
      if r.text ≠ "" then
        ([m], some r.text)
      else
        let p := fallbackRun behave rest
        (m :: p.1, p.2)
    | .exn _ =>
      let p := fallbackRun behave rest
      (m :: p.1, p.2)

/-- The user-facing apology returned when every fallback fails (source line
294); `error` is the message of the exception that started the cascade. -/
def apologyString (error : String) : String :=
  "I apologize, but I couldn't generate a response. Please try again. (Error: " ++ error ++ ")"

/-- GeminiService._fallback_generate (source lines 274-294): try each model
of FALLBACK_ORDER on the same content, return the first non-empty text, else
the apology string embedding the triggering error. -/
def fallback_generate (behave : Behaviour) (error : String) : String :=
  match (fallbackRun behave GeminiModelConfig.FALLBACK_ORDER).2 with
  | some t => t
  | none => apologyString error

/-- GeminiService.generate, non-streaming path (source lines 179-249),
instrumented with the list of models attempted.  The router picks the model
from (task_type, images-present, len(prompt)); a non-empty response text is
returned as-is; an empty/blocked response produces the placeholder strings of
lines 241-245; a raised exception enters _fallback_generate.  The Except
result is .ok in every branch because the body's try/except catches every
exception. -/
def generateRun (behave : Behaviour) (prompt : String) (task_type : TaskType)
    (hasImages : Bool) : List String × Except String String :=
  let model_name := GeminiModelConfig.get_best_model task_type hasImages prompt.length
  match behave model_name with
  | .ok r =>
    if r.text ≠ "" then
      ([model_name], .ok r.text)
    else
      match r.finish_reason with
      | some reason => ([model_name], .ok ("Response was blocked or empty. Reason: " ++ reason))
      | none => ([model_name], .ok "No response generated. Please try again.")
  | .exn e =>
    let p := fallbackRun behave GeminiModelConfig.FALLBACK_ORDER
    (model_name :: p.1, .ok (fallback_generate behave e))

/-- The value GeminiService.generate returns to its caller. -/
def generate (behave : Behaviour) (prompt : String) (task_type : TaskType)
    (hasImages : Bool) : Except String String :=
  (generateRun behave prompt task_type hasImages).2

/-- Character-list prefix test, used by the substring test below. -/
def isPrefixChars : List Char → List Char → Bool
  | [], _ => true
  | _ :: _, [] => false
  | c :: cs, d :: ds => (c == d) && isPrefixChars cs ds

/-- Substring test on character lists, used to state that a result string
embeds an error message. -/
def containsSub (hay needle : List Char) : Bool :=
  match hay with
  | [] => needle.isEmpty
  | _ :: t => isPrefixChars needle hay || containsSub t needle

/-- The result string embeds the error message as a contiguous substring. -/
def embedsError (result error : String) : Prop :=
  containsSub result.toList error.toList = true

instance (result error : String) : Decidable (embedsError result error) := by
  unfold embedsError
  infer_instance

instance {ε α : Type} [DecidableEq ε] [DecidableEq α] : DecidableEq (Except ε α) := fun a b =>
  match a, b with
  | .ok x, .ok y =>
    match decEq x y with
    | isTrue h => isTrue (by rw [h])
    | isFalse h => isFalse (by intro hc; cases hc; exact h rfl)
  | .error x, .error y =>
    match decEq x y with
    | isTrue h => isTrue (by rw [h])
    | isFalse h => isFalse (by intro hc; cases hc; exact h rfl)
  | .ok _, .error _ => isFalse (by intro hc; cases hc)
  | .error _, .ok _ => isFalse (by intro hc; cases hc)

/-- TaskStatus enum of apps/api/models.py. -/
inductive TaskStatus where
  | pending
  | processing
  | completed
  | failed
  deriving DecidableEq, BEq, Repr

/-- The .value string of each TaskStatus member. -/
def statusValue : TaskStatus → String
  | .pending => "pending"
  | .processing => "processing"
  | .completed => "completed"
  | .failed => "failed"

/-- The JSON payloads stored in ProcessingTask.result_data that matter to the
resume-optimization pipeline: either the input parameters pre-populated by the
enqueue side (read back at tasks.py lines 528-529) or the completed payload
written at tasks.py lines 546-552.  Both shapes are non-empty dicts, so a
`some` value is always truthy for the source's `if result_data:` tests. -/
inductive ResultData where
  | inputParams (target_role : Option String) (keywords : List String)
  | resumePayload (optimized_resume : String) (target_role : Option String)
      (keywords : List String) (document_name : String) (full_text : String)
  deriving DecidableEq, Repr

/-- result_data.get("target_role"), as read at tasks.py line 528. -/
def targetRoleOf : ResultData → Option String
  | .inputParams tr _ => tr
  | .resumePayload _ tr _ _ _ => tr

/-- result_data.get("keywords", []), as read at tasks.py line 529. -/
def keywordsOf : ResultData → List String
  | .inputParams _ ks => ks
  | .resumePayload _ _ ks _ _ => ks

/-- ProcessingTask row of apps/api/models.py (the columns this development
needs).  `id` is the 128-bit integer value of the task's UUID; timestamps are
abstract instants. -/
structure ProcessingTask where
  id : Nat
  user_id : Nat
  tool_used : String
  status : TaskStatus
  result_data : Option ResultData
  error_message : Option String
  created_at : Nat
  completed_at : Option Nat
  deriving DecidableEq, Repr

/-- update_task_status of tasks.py lines 41-64, applied to the record the
task_id lookup found.  The status is written unconditionally; result_data and
error_message are overwritten only when the arguments are truthy (a non-empty
error string, any ResultData value — both modelled shapes are non-empty
dicts); completed_at is stamped on a terminal status. -/
def update_task_status (task : ProcessingTask) (status : TaskStatus)
    (result_data : Option ResultData) (error_message : Option String)
    (now : Nat) : ProcessingTask :=
  { task with
    status := status
    result_data :=
      match result_data with
      | some r => some r
      | none => task.result_data
    error_message :=
      match error_message with
      | some e => if e = "" then task.error_message else some e
      | none => task.error_message
    completed_at :=
      if status = .completed ∨ status = .failed then some now
      else task.completed_at }

/-- Collaborators of run_resume_optimization (tasks.py lines 507-575):
the document's filename; the combined S3 download + pdfplumber extraction,
which genuinely raises (download_from_s3 re-raises ClientError at
tasks.py:38, pdfplumber raises on bad bytes), so it is Except-valued; the
vertex_ai_tools.optimize_resume call, which is total because generate_text
catches every exception and returns a mock string (vertex_ai_tools.py:109-112);
and the completion-email send, which wraps its whole body in try/except and
returns a success Bool, never raising (send_task_complete_email in
core/email_sender.py). -/
structure ResumeEnv where
  document_name : String
  extractText : Except String String
  optimize : String → Option String → List String → String
  sendEmail : Bool

/-- run_resume_optimization of tasks.py lines 507-575, applied to the fetched
record: returns the sequence of record snapshots committed to the database,
in order.  The body commits PROCESSING unconditionally — it performs no check
of the record's current status — reads target_role/keywords from the
pre-populated result_data, then runs S3 download + extraction (the only stage
of the pipeline that can raise; a raise lands in the except branch, which
stamps FAILED + error_message and commits without touching result_data).  On
success it overwrites result_data with the completed payload, commits
COMPLETED, and calls the completion-email sender, whose Bool result is
discarded and cannot raise. -/
def run_resume_optimization (env : ResumeEnv) (task : ProcessingTask)
    (now : Nat) : List ProcessingTask :=
  let t1 := { task with status := .processing }
  let target_role :=
    match task.result_data with
    | some d => targetRoleOf d
    | none => none
  let keywords :=
    match task.result_data with
    | some d => keywordsOf d
    | none => []
  match env.extractText with
  | .error e =>
    [t1, { t1 with status := .failed, error_message := some e, completed_at := some now }]
  | .ok text_content =>
    let optimized := env.optimize text_content target_role keywords
    let t2 := { t1 with
      status := .completed
      result_data := some (.resumePayload optimized target_role keywords
        env.document_name text_content)
      completed_at := some now }
    [t1, t2]

/-- The spec's monotonicity predicate on an observed status sequence: a
prefix of [PENDING, PROCESSING, COMPLETED] or of [PENDING, PROCESSING,
FAILED]. -/
def statusTraceAllowed (l : List TaskStatus) : Bool :=
  l.isPrefixOf [.pending, .processing, .completed]
    || l.isPrefixOf [.pending, .processing, .failed]

/-- Remove every occurrence of "urn:" (Python str.replace scans left to
right, non-overlapping), the first stage of uuid.UUID's string parsing. -/
def removeUrn : List Char → List Char
  | 'u' :: 'r' :: 'n' :: ':' :: rest => removeUrn rest
  | c :: rest => c :: removeUrn rest
  | [] => []

/-- Remove every occurrence of "uuid:", the second stage. -/
def removeUuid : List Char → List Char
  | 'u' :: 'u' :: 'i' :: 'd' :: ':' :: rest => removeUuid rest
  | c :: rest => c :: removeUuid rest
  | [] => []

/-- Curly-brace test (by code point, 123 and 125). -/
def isBrace (c : Char) : Bool :=
  c.toNat = 123 || c.toNat = 125

/-- Python str.strip with a brace charset: drop braces from both ends. -/
def stripBraces (s : List Char) : List Char :=
  ((s.dropWhile isBrace).reverse.dropWhile isBrace).reverse

/-- Hexadecimal digit test, by code point ranges 0-9, a-f, A-F. -/
def isHexChar (c : Char) : Bool :=
  (48 ≤ c.toNat && c.toNat ≤ 57)
    || (97 ≤ c.toNat && c.toNat ≤ 102)
    || (65 ≤ c.toNat && c.toNat ≤ 70)

/-- Value of a hexadecimal digit (0 for non-digits, unused on them). -/
def hexVal (c : Char) : Nat :=
  if 48 ≤ c.toNat && c.toNat ≤ 57 then c.toNat - 48
  else if 97 ≤ c.toNat && c.toNat ≤ 102 then c.toNat - 87
  else if 65 ≤ c.toNat && c.toNat ≤ 70 then c.toNat - 55
  else 0

/-- ASCII characters CPython's long parser skips around a numeral
(Py_ISSPACE on the ASCII fast path): 0x09-0x0D and 0x20.  The wider
str.isspace set (0x1C-0x1F and the non-ASCII spaces) is only honoured by the
non-ASCII transform, which is outside this ASCII-exact model. -/
def isPySpace (c : Char) : Bool :=
  c.toNat = 32 || (9 ≤ c.toNat && c.toNat ≤ 13)

/-- The digit run of CPython's int(s, 16): consume hex digits, allowing a
single underscore between two digits; stop (leaving the rest, including any
offending underscore) at the first character that does not continue the run.
Returns the accumulated value and the unconsumed remainder. -/
def digitsLoop (acc : Nat) : List Char → Nat × List Char
  | [] => (acc, [])
  | c :: rest =>
    if isHexChar c then digitsLoop (16 * acc + hexVal c) rest
    else if c.toNat = 95 then
      match rest with
      | d :: rest2 =>
        if isHexChar d then digitsLoop (16 * acc + hexVal d) rest2
        else (acc, c :: rest)
      | [] => (acc, c :: rest)
    else (acc, c :: rest)

/-- CPython's int(s, 16) on an ASCII string: optional surrounding
whitespace, an optional sign, an optional 0x/0X prefix (itself optionally
followed by one underscore), then at least one hex digit with single
underscores permitted between digits, and nothing else.  Returns none where
int() raises ValueError, and none for a negative value of nonzero magnitude
(uuid.UUID's 0 <= int < 2^128 range check rejects it).  CPython's
transformation of non-ASCII decimal digits and non-ASCII whitespace is not
modelled: this function is exact on ASCII input and rejects everything
else. -/
def parsePyIntHex (s : List Char) : Option Nat :=
  let s1 := s.dropWhile isPySpace
  let signed :=
    match s1 with
    | c :: rest =>
      if c.toNat = 43 then (false, rest)
      else if c.toNat = 45 then (true, rest)
      else (false, s1)
    | [] => (false, s1)
  let s3 :=
    match signed.2 with
    | c0 :: c1 :: rest =>
      if c0.toNat = 48 && (c1.toNat = 120 || c1.toNat = 88) then
        match rest with
        | u :: rest2 => if u.toNat = 95 then rest2 else rest
        | [] => rest
      else signed.2
    | _ => signed.2
  match s3 with
  | c :: _ =>
    if isHexChar c then
      let p := digitsLoop 0 s3
      if (p.2.dropWhile isPySpace).isEmpty then
        if signed.1 then (if p.1 = 0 then some 0 else none) else some p.1
      else none
    else none
  | [] => none

/-- CPython's uuid.UUID(hex=...) string parsing: remove every "urn:" and
then every "uuid:" occurrence, strip surrounding braces, drop every hyphen,
demand exactly 32 remaining characters, convert them with int(s, 16), and
apply the constructor's 0 <= int < 2^128 range check (the upper bound holds
automatically for at most 32 hex digits and is kept for fidelity).  Exact on
ASCII strings; non-ASCII characters are rejected (see parsePyIntHex). -/
def parseUUID (s : String) : Option Nat :=
  let cs := ((stripBraces (removeUuid (removeUrn s.toList))).filter
    (fun c => c.toNat ≠ 45))
  if cs.length = 32 then
    match parsePyIntHex cs with
    | some v => if v < 2 ^ 128 then some v else none
    | none => none
  else
    none

/-- An HTTPException raised by a router handler. -/
structure HErr where
  status_code : Nat
  detail : String
  deriving DecidableEq, Repr

/-- TaskStatusResponse of routers/task_status.py (task_id kept as the UUID's
integer value, created_at/completed_at as abstract instants). -/
structure TaskStatusResponse where
  task_id : Nat
  status : String
  tool_used : String
  result_data : Option ResultData
  error_message : Option String
  created_at : Nat
  completed_at : Option Nat
  progress_percentage : Option Nat
  deriving DecidableEq, Repr

/-- get_task_status of routers/task_status.py lines 32-86, over an in-memory
list of ProcessingTask rows standing for the database (find? is the query's
.first()).  The handler only reads: it is a pure function of the store.
Order as in the source: UUID parse (400), lookup (404), ownership check
(403), then the progress if/elif chain and the response projection. -/
def get_task_status (db : List ProcessingTask) (task_id : String)
    (userId : Nat) : Except HErr TaskStatusResponse :=
  match parseUUID task_id with
  | none => .error { status_code := 400, detail := "Invalid task ID format" }
  | some task_uuid =>
    match db.find? (fun t => t.id == task_uuid) with
    | none => .error { status_code := 404, detail := "Task not found" }
    | some task =>
      if task.user_id ≠ userId then
        .error { status_code := 403,
                 detail := "Access denied: This task belongs to another user" }
      else
        let progress : Option Nat :=
          if task.status = .pending then some 0
          else if task.status = .processing then some 50
          else if task.status = .completed then some 100
          else if task.status = .failed then some 0
          else none
        .ok { task_id := task.id
              status := statusValue task.status
              tool_used := task.tool_used
              result_data := task.result_data
              error_message := task.error_message
              created_at := task.created_at
              completed_at := task.completed_at
              progress_percentage := progress }

/-- The spec's progress table: PENDING to 0, PROCESSING to 50, COMPLETED to
100, FAILED to 0. -/
def progressSpec : TaskStatus → Nat
  | .pending => 0
  | .processing => 50
  | .completed => 100
  | .failed => 0

/-- models.TaskStatus(status_filter): value-to-member lookup. -/
def parseStatus (s : String) : Option TaskStatus :=
  if s = "pending" then some .pending
  else if s = "processing" then some .processing
  else if s = "completed" then some .completed
  else if s = "failed" then some .failed
  else none

/-- One element of the "tasks" array built by list_user_tasks. -/
structure TaskSummary where
  id : Nat
  tool_used : String
  status : String
  created_at : Nat
  completed_at : Option Nat
  deriving DecidableEq, Repr

/-- The JSON object returned by list_user_tasks. -/
structure TaskListResponse where
  tasks : List TaskSummary
  total : Nat
  deriving DecidableEq, Repr

/-- Insert a record into a list kept in descending created_at order
(modelling the database's ORDER BY created_at DESC; relative order of equal
timestamps is unspecified by SQL). -/
def insertDesc (t : ProcessingTask) : List ProcessingTask → List ProcessingTask
  | [] => [t]
  | x :: xs =>
    if x.created_at ≥ t.created_at then x :: insertDesc t xs
    else t :: x :: xs

/-- Sort records by created_at, newest first. -/
def sortByCreatedDesc : List ProcessingTask → List ProcessingTask
  | [] => []
  | t :: ts => insertDesc t (sortByCreatedDesc ts)

/-- The row set the query of list_user_tasks matches before LIMIT/OFFSET:
the caller's rows, narrowed by the status filter when one is given (an empty
filter string is falsy and skips filtering; an invalid one produces no rows
here — that call path returns 400 instead). -/
def matchingTasks (db : List ProcessingTask) (userId : Nat)
    (status_filter : Option String) : List ProcessingTask :=
  let base := db.filter (fun t => t.user_id == userId)
  match status_filter with
  | none => base
  | some s =>
    if s = "" then base
    else
      match parseStatus s with
      | some st => base.filter (fun t => t.status == st)
      | none => []

/-- The projection of the list comprehension at task_status.py lines 119-128. -/
def toSummary (t : ProcessingTask) : TaskSummary :=
  { id := t.id, tool_used := t.tool_used, status := statusValue t.status,
    created_at := t.created_at, completed_at := t.completed_at }

/-- list_user_tasks of routers/task_status.py lines 89-130: filter by owner,
optionally by status (400 on an unknown status value), ORDER BY created_at
DESC, then LIMIT limit OFFSET offset (SQL applies OFFSET before LIMIT
regardless of the method-call order), and return the summaries together with
total = len(tasks). -/
def list_user_tasks (db : List ProcessingTask) (userId : Nat) (limit : Nat)
    (offset : Nat) (status_filter : Option String) :
    Except HErr TaskListResponse :=
  let base := db.filter (fun t => t.user_id == userId)
  let checked : Except HErr (List ProcessingTask) :=
    match status_filter with
    | none => .ok base
    | some s =>
      if s = "" then .ok base
      else
        match parseStatus s with
        | some st => .ok (base.filter (fun t => t.status == st))
        | none => .error { status_code := 400, detail := "Invalid status: " ++ s }
  match checked with
  | .error e => .error e
  | .ok rows =>
    let page := ((sortByCreatedDesc rows).drop offset).take limit
    let summaries := page.map toSummary
    .ok { tasks := summaries, total := summaries.length }

/-- Text carried by an outcome (the text of a response, "" for a raise);
used only to phrase which text a successful cascade returns. -/
def respText : Outcome → String
  | .ok r => r.text
  | .exn _ => ""

/-- Environment used to exhibit the resume-optimizer failure path with
pre-populated result_data: the S3 download raises a ClientError, which
download_from_s3 re-raises (tasks.py:36-38) into the task's except branch.
The AI call and the email sender never raise and are immaterial here. -/
def c2Env : ResumeEnv :=
  { document_name := "resume.pdf"
    extractText := .error "An error occurred (NoSuchKey) when calling the GetObject operation"
    optimize := fun _ _ _ => "optimized resume"
    sendEmail := true }

/-- A PENDING record whose result_data was pre-populated with the tool's
input parameters by the enqueue side (the shape tasks.py:528-529 reads). -/
def c2Task : ProcessingTask :=
  { id := 42, user_id := 7, tool_used := "resume-optimizer", status := .pending,
    result_data := some (.inputParams (some "Site Reliability Engineer") ["kubernetes"]),
    error_message := none, created_at := 0, completed_at := none }

/-- The FAILED snapshot that run_resume_optimization commits on c2Env/c2Task:
terminal, with result_data still the pre-populated parameters and
error_message set. -/
def c2Failed : ProcessingTask :=
  { id := 42, user_id := 7, tool_used := "resume-optimizer", status := .failed,
    result_data := some (.inputParams (some "Site Reliability Engineer") ["kubernetes"]),
    error_message := some "An error occurred (NoSuchKey) when calling the GetObject operation",
    created_at := 0, completed_at := some 5 }

/-- An all-success environment: extraction yields text, the AI wrapper and
email sender behave normally (they cannot raise in any case). -/
def c3Env : ResumeEnv :=
  { document_name := "resume.pdf"
    extractText := .ok "resume text"
    optimize := fun _ _ _ => "optimized resume"
    sendEmail := true }

/-- A record that already reached the terminal COMPLETED state, to which the
worker operation is applied again (a re-delivered or re-enqueued task id). -/
def c3Task : ProcessingTask :=
  { id := 9, user_id := 3, tool_used := "resume-optimizer", status := .completed,
    result_data := some (.resumePayload "done" none [] "resume.pdf" "resume text"),
    error_message := none, created_at := 0, completed_at := some 4 }

/-- A fresh PENDING record for the single-application monotonicity witness. -/
def c3Pending : ProcessingTask :=
  { id := 10, user_id := 3, tool_used := "resume-optimizer", status := .pending,
    result_data := none, error_message := none, created_at := 0,
    completed_at := none }

/-- Three records of one owner, used to exercise the list endpoint. -/
def c10db : List ProcessingTask :=
  [ { id := 11, user_id := 1, tool_used := "summarize", status := .completed,
      result_data := none, error_message := none, created_at := 1,
      completed_at := some 2 },
    { id := 12, user_id := 1, tool_used := "translate", status := .pending,
      result_data := none, error_message := none, created_at := 2,
      completed_at := none },
    { id := 13, user_id := 1, tool_used := "review", status := .failed,
      result_data := none, error_message := some "boom", created_at := 3,
      completed_at := some 4 } ]

/-- A record owned by user 9, used to exercise the ownership check with a
caller whose id differs. -/
def c7Task : ProcessingTask :=
  { id := 0x12345678123456781234567812345678, user_id := 9,
    tool_used := "summarize", status := .processing, result_data := none,
    error_message := none, created_at := 0, completed_at := none }

/-- A PROCESSING record of user 3, used to exercise the progress
projection. -/
def c8Task : ProcessingTask :=
  { id := 0xff, user_id := 3, tool_used := "translate", status := .processing,
    result_data := none, error_message := none, created_at := 0,
    completed_at := none }

/-- The page list_user_tasks returns on c10db with limit 2, offset 0. -/
def c10resp : TaskListResponse :=
  { tasks :=
      [ { id := 13, tool_used := "review", status := "failed", created_at := 3,
          completed_at := some 4 },
        { id := 12, tool_used := "translate", status := "pending", created_at := 2,
          completed_at := none } ],
    total := 2 }

theorem fallbackRun_eq (behave : Behaviour) (l : List String) :
    fallbackRun behave l
      = (l.takeWhile (fun m => !succeedsB behave m)
          ++ (l.dropWhile (fun m => !succeedsB behave m)).take 1,
         match l.dropWhile (fun m => !succeedsB behave m) with
         | [] => none
         | m :: _ => some (respText (behave m))) := by
  induction l with
  | nil => rfl
  | cons m rest ih =>
    cases hb : behave m with
    | ok r =>
      by_cases ht : r.text = ""
      · have hsucc : succeedsB behave m = false := by simp [succeedsB, hb, ht]
        simp [fallbackRun, hb, ht, ih, List.takeWhile_cons, List.dropWhile_cons, hsucc]
      · have hsucc : succeedsB behave m = true := by simp [succeedsB, hb, ht]
        simp [fallbackRun, hb, ht, List.takeWhile_cons, List.dropWhile_cons, hsucc, respText]
    | exn e =>
      have hsucc : succeedsB behave m = false := by simp [succeedsB, hb]
      simp [fallbackRun, hb, ih, List.takeWhile_cons, List.dropWhile_cons, hsucc]

/-- C1 (counterexample): the claim "the model that just failed is never
re-attempted" is false.  With the router's own primary choice for a short
simple-chat prompt — gemini-2.0-flash-exp, a member of FALLBACK_ORDER — and a
backend on which every call raises, the executor attempts the failed primary
model a second time: it occurs twice in the attempted-model sequence. -/
theorem C1_primary_reattempted_counterexample :
    GeminiModelConfig.get_best_model .chat_simple false (String.length "hi")
        = "gemini-2.0-flash-exp" ∧
    (generateRun (fun _ => .exn "429 quota exceeded") "hi" .chat_simple false).1
        = ["gemini-2.0-flash-exp", "gemini-2.0-flash-exp", "gemini-1.5-pro",
           "gemini-1.5-flash", "gemini-1.5-flash-8b"] ∧
    (["gemini-2.0-flash-exp", "gemini-2.0-flash-exp", "gemini-1.5-pro",
      "gemini-1.5-flash", "gemini-1.5-flash-8b"].count "gemini-2.0-flash-exp") = 2 := by
  decide

/-- C1 (amended): on any backend behaviour, the fallback cascade attempts
exactly the models of the fixed FALLBACK_ORDER in order — without excluding
the model that just failed — up to and including the first model whose call
returns a non-empty text (all of them if none does), and it returns that
first model's text. -/
theorem C1_fallback_cascade_amended (behave : Behaviour) :
    (fallbackRun behave GeminiModelConfig.FALLBACK_ORDER).1
        = GeminiModelConfig.FALLBACK_ORDER.takeWhile (fun m => !succeedsB behave m)
          ++ (GeminiModelConfig.FALLBACK_ORDER.dropWhile (fun m => !succeedsB behave m)).take 1 ∧
    (fallbackRun behave GeminiModelConfig.FALLBACK_ORDER).2
        = match GeminiModelConfig.FALLBACK_ORDER.dropWhile (fun m => !succeedsB behave m) with
          | [] => none
          | m :: _ => some (respText (behave m)) := by
  have h := fallbackRun_eq behave GeminiModelConfig.FALLBACK_ORDER
  exact ⟨by rw [h], by rw [h]⟩

/-- C6: for the image-generation task type the Router returns the designated
override model id for every vision flag and every input length; the result
never depends on the affinity filter, the fallback order, or the input-size
tie-break. -/
theorem C6_image_generation_override (requires_vision : Bool) (input_length : Nat) :
    GeminiModelConfig.get_best_model .image_generation requires_vision input_length
      = "gemini-2.0-flash-exp" := by
  rfl

/-- C9: an ASCII task_id string that does not parse as a UUID — parseUUID is
exact on ASCII input, including int(s, 16)'s acceptance of surrounding
whitespace, a sign, a 0x prefix and underscores between digits — is rejected
with a 400 validation error, for every database state and every caller.  The
response does not depend on which records exist, so no lookup or ownership
check can have influenced it.  The ASCII bound marks the model's boundary:
CPython's transformation of non-ASCII decimal digits and whitespace inside
int() is not modelled. -/
theorem C9_invalid_uuid_rejected (db : List ProcessingTask) (userId : Nat)
    (task_id : String) (_hascii : ∀ c ∈ task_id.toList, c.toNat < 128)
    (h : parseUUID task_id = none) :
    get_task_status db task_id userId
      = .error { status_code := 400, detail := "Invalid task ID format" } := by
  unfold get_task_status
  rw [h]

/-- C9 witness: the concrete ASCII non-UUID string "halo" is rejected with
400 even though a record exists. -/
theorem C9_invalid_uuid_rejected_witness :
    parseUUID "halo" = none ∧
    get_task_status
        [ { id := 5, user_id := 7, tool_used := "summarize", status := .pending,
            result_data := none, error_message := none, created_at := 0,
            completed_at := none } ] "halo" 7
      = .error { status_code := 400, detail := "Invalid task ID format" } :=
  ⟨by decide,
   C9_invalid_uuid_rejected
     [ { id := 5, user_id := 7, tool_used := "summarize", status := .pending,
         result_data := none, error_message := none, created_at := 0,
         completed_at := none } ] 7 "halo" (by decide) (by decide)⟩

theorem containsSub_nil_needle (l : List Char) : containsSub l [] = true := by
  cases l with
  | nil => rfl
  | cons c t => exact Bool.true_or _

theorem isPrefixChars_append_self (l t : List Char) : isPrefixChars l (l ++ t) = true := by
  induction l with
  | nil => cases t <;> rfl
  | cons c cs ih => simp [isPrefixChars, ih]

theorem containsSub_append (pre needle post : List Char) :
    containsSub (pre ++ needle ++ post) needle = true := by
  induction pre with
  | nil =>
    cases needle with
    | nil => exact containsSub_nil_needle post
    | cons c cs =>
      show (isPrefixChars (c :: cs) ((c :: cs) ++ post)
          || containsSub (cs ++ post) (c :: cs)) = true
      rw [isPrefixChars_append_self, Bool.true_or]
  | cons p ps ih =>
    show (isPrefixChars needle ((p :: ps) ++ needle ++ post)
        || containsSub (ps ++ needle ++ post) needle) = true
    rw [ih, Bool.or_true]

theorem fallbackRun_snd_none (behave : Behaviour) (l : List String)
    (h : ∀ m ∈ l, succeedsB behave m = false) : (fallbackRun behave l).2 = none := by
  induction l with
  | nil => rfl
  | cons m rest ih =>
    have hm := h m (List.mem_cons_self m rest)
    have hrest : ∀ m' ∈ rest, succeedsB behave m' = false :=
      fun m' hm' => h m' (List.mem_cons_of_mem m hm')
    cases hb : behave m with
    | ok r =>
      have ht : r.text = "" := by
        by_contra hne
        simp [succeedsB, hb, hne] at hm
      simp [fallbackRun, hb, ht, ih hrest]
    | exn e =>
      simp [fallbackRun, hb, ih hrest]

theorem apologyString_ne_empty (e : String) : apologyString e ≠ "" := by
  intro h
  have hd : (apologyString e).data = ("" : String).data := by rw [h]
  rw [apologyString, String.data_append, String.data_append] at hd
  have h1 : ((")" : String)).data = [')'] := rfl
  have h2 : (("" : String)).data = [] := rfl
  rw [h1, h2] at hd
  exact absurd hd (by simp)

theorem embedsError_apologyString (e : String) : embedsError (apologyString e) e := by
  show containsSub (apologyString e).toList e.toList = true
  have hd : (apologyString e).toList
      = "I apologize, but I couldn't generate a response. Please try again. (Error: ".toList
        ++ e.toList ++ ")".toList := by
    show (apologyString e).data = _
    rw [apologyString, String.data_append, String.data_append]
    rfl
  rw [hd]
  exact containsSub_append _ _ _

/-- C5 (counterexample): the claim that the apology "embeds the last error"
is false.  The primary model raises "AAAA" and every fallback model raises
"ZZZZ" — the last error of the cascade is "ZZZZ" (raised in particular by the
last model of FALLBACK_ORDER) — yet the returned apology embeds "AAAA", the
primary error, and does not contain "ZZZZ". -/
theorem C5_last_error_counterexample :
    generate
        (fun m => if m == "gemini-2.0-flash-exp" then Outcome.exn "AAAA" else Outcome.exn "ZZZZ")
        "hi" .chat_simple false
      = .ok (apologyString "AAAA") ∧
    (fun m => if m == "gemini-2.0-flash-exp" then Outcome.exn "AAAA" else Outcome.exn "ZZZZ")
        "gemini-1.5-flash-8b" = Outcome.exn "ZZZZ" ∧
    GeminiModelConfig.FALLBACK_ORDER.getLast? = some "gemini-1.5-flash-8b" ∧
    ¬ embedsError (apologyString "AAAA") "ZZZZ" := by
  decide

/-- C5 (amended): the executor's generate never raises to its caller (every
branch of the try/except returns), and when the primary call raises and every
fallback model fails to produce text, it returns the non-empty user-facing
apology string embedding the error of the primary call — the one that
triggered the cascade. -/
theorem C5_apology_amended :
    (∀ (behave : Behaviour) (prompt : String) (tt : TaskType) (img : Bool),
        ∃ s, generate behave prompt tt img = .ok s) ∧
    (∀ (behave : Behaviour) (prompt : String) (tt : TaskType) (img : Bool) (e : String),
        behave (GeminiModelConfig.get_best_model tt img prompt.length) = .exn e →
        (∀ m ∈ GeminiModelConfig.FALLBACK_ORDER, succeedsB behave m = false) →
        generate behave prompt tt img = .ok (apologyString e)
          ∧ apologyString e ≠ "" ∧ embedsError (apologyString e) e) := by
  constructor
  · intro behave prompt tt img
    cases hb : behave (GeminiModelConfig.get_best_model tt img prompt.length) with
    | ok r =>
      by_cases ht : r.text = ""
      · cases hr : r.finish_reason with
        | none =>
          exact ⟨"No response generated. Please try again.",
            by simp [generate, generateRun, hb, ht, hr]⟩
        | some reason =>
          exact ⟨"Response was blocked or empty. Reason: " ++ reason,
            by simp [generate, generateRun, hb, ht, hr]⟩
      · exact ⟨r.text, by simp [generate, generateRun, hb, ht]⟩
    | exn e => exact ⟨fallback_generate behave e, by simp [generate, generateRun, hb]⟩
  · intro behave prompt tt img e hp hf
    refine ⟨?_, apologyString_ne_empty e, embedsError_apologyString e⟩
    have hnone := fallbackRun_snd_none behave GeminiModelConfig.FALLBACK_ORDER hf
    simp [generate, generateRun, hp, fallback_generate, hnone]

/-- C5 witness: on a backend where every call raises "quota", generate
returns .ok of the apology embedding "quota". -/
theorem C5_apology_amended_witness :
    (∃ s, generate (fun _ => Outcome.exn "quota") "hi" .chat_simple false = .ok s) ∧
    generate (fun _ => Outcome.exn "quota") "hi" .chat_simple false
        = .ok (apologyString "quota") ∧
    apologyString "quota" ≠ "" ∧ embedsError (apologyString "quota") "quota" := by
  have h2 := C5_apology_amended.2 (fun _ => Outcome.exn "quota") "hi" .chat_simple false
    "quota" (by decide) (by decide)
  exact ⟨C5_apology_amended.1 (fun _ => Outcome.exn "quota") "hi" .chat_simple false,
    h2.1, h2.2.1, h2.2.2⟩

/-- C4 (counterexample): at task type chat_complex (no vision) with input
length 10001, two models survive the filter — gemini-1.5-pro (tier high,
rank 2) and gemini-exp-1206 (tier highest, rank 3) — and the Router returns
gemini-1.5-pro, although a survivor with a strictly higher reasoning tier
exists.  The claim "returns the surviving candidate with the highest
reasoning_tier among the survivors" is therefore false. -/
theorem C4_not_highest_tier_counterexample :
    GeminiModelConfig.get_best_model .chat_complex false 10001 = "gemini-1.5-pro" ∧
    (GeminiModelConfig.suitableModels .chat_complex false).map (·.name)
        = ["gemini-1.5-pro", "gemini-exp-1206"] ∧
    ((GeminiModelConfig.MODELS.find? (fun c => c.name = "gemini-1.5-pro")).map
        (fun c => tierRank c.reasoning)) = some 2 ∧
    ((GeminiModelConfig.suitableModels .chat_complex false).any
        (fun c => decide (2 < tierRank c.reasoning))) = true := by
  decide

/-- C4 (amended): for every non-image-generation task type with a non-empty
survivor set, the Router returns, when the input length exceeds 10000, the
first surviving candidate in registry iteration order whose reasoning tier is
high or highest (not necessarily the maximum tier), falling back to the first
surviving candidate when no survivor has such a tier; when the input length
is at most 10000 it returns the first surviving candidate in registry
iteration order. -/
theorem C4_router_tiebreak_amended (tt : TaskType) (rv : Bool) (il : Nat)
    (hne : tt ≠ .image_generation)
    (hs : GeminiModelConfig.suitableModels tt rv ≠ []) :
    (il > 10000 →
      GeminiModelConfig.get_best_model tt rv il
        = (match (GeminiModelConfig.suitableModels tt rv).find?
              (fun c => c.reasoning = .high ∨ c.reasoning = .highest) with
           | some c => c.name
           | none => (GeminiModelConfig.suitableModels tt rv).headI.name)) ∧
    (il ≤ 10000 →
      GeminiModelConfig.get_best_model tt rv il
        = (GeminiModelConfig.suitableModels tt rv).headI.name) := by
  obtain ⟨c0, cs, hcc⟩ := List.exists_cons_of_ne_nil hs
  constructor
  · intro hgt
    rw [hcc]
    simp only [GeminiModelConfig.get_best_model, if_neg hne, hcc, List.isEmpty_cons,
      if_pos hgt]
    cases hf : (c0 :: cs).find? (fun c => c.reasoning = .high ∨ c.reasoning = .highest) with
    | none => simp [hf, List.headI]
    | some c => simp [hf]
  · intro hle
    have hgt' : ¬ (il > 10000) := by omega
    rw [hcc]
    simp only [GeminiModelConfig.get_best_model, if_neg hne, hcc, List.isEmpty_cons,
      if_neg hgt', List.headI]
    simp

/-- C4 witness: concrete router calls through the amended theorem — at
chat_complex with a long input the first high-or-highest survivor
(gemini-1.5-pro) is returned, and with a short input the first survivor
(also gemini-1.5-pro) is returned. -/
theorem C4_router_tiebreak_amended_witness :
    GeminiModelConfig.get_best_model .chat_complex false 10001 = "gemini-1.5-pro" ∧
    GeminiModelConfig.get_best_model .chat_complex false 500 = "gemini-1.5-pro" := by
  have h1 := C4_router_tiebreak_amended .chat_complex false 10001 (by decide) (by decide)
  have h2 := C4_router_tiebreak_amended .chat_complex false 500 (by decide) (by decide)
  constructor
  · rw [h1.1 (by decide)]; decide
  · rw [h2.2 (by decide)]; decide

/-- C2 (counterexample): a resume-optimization record whose result_data was
pre-populated with the tool's input parameters and whose S3 download raises
a ClientError (re-raised by download_from_s3, tasks.py:36-38) ends FAILED
with BOTH result_data and error_message non-null — the committed snapshots
are (PROCESSING, result set, error unset) then (FAILED, result still set,
error set), falsifying "exactly one ... never both". -/
theorem C2_both_non_null_counterexample :
    (run_resume_optimization c2Env c2Task 5).map
        (fun t => (t.status, t.result_data.isSome, t.error_message.isSome))
      = [(.processing, true, false), (.failed, true, true)] := by
  decide

/-- C2 (amended): every snapshot the resume-optimization pipeline commits
satisfies the "never neither" half of the invariant — a FAILED snapshot
always carries a non-null error_message and a COMPLETED snapshot always
carries a non-null result_data — for every collaborator behaviour and every
starting record.  (The "never both" half fails; see the counterexample.) -/
theorem C2_terminal_payload_amended (env : ResumeEnv) (task : ProcessingTask)
    (now : Nat) :
    ∀ t ∈ run_resume_optimization env task now,
      (t.status = .failed → t.error_message ≠ none) ∧
      (t.status = .completed → t.result_data ≠ none) := by
  intro t ht
  cases hx : env.extractText with
  | error e =>
    simp only [run_resume_optimization, hx, List.mem_cons, List.not_mem_nil,
      or_false] at ht
    rcases ht with h | h <;> subst h <;>
      exact ⟨fun hst => by simp_all, fun hst => by simp_all⟩
  | ok text_content =>
    simp only [run_resume_optimization, hx, List.mem_cons, List.not_mem_nil,
      or_false] at ht
    rcases ht with h | h <;> subst h <;>
      exact ⟨fun hst => by simp_all, fun hst => by simp_all⟩

/-- C2 witness: the amended theorem applied to the concrete FAILED snapshot
of the counterexample run — it indeed carries a non-null error_message. -/
theorem C2_terminal_payload_amended_witness :
    (c2Failed.status = .failed → c2Failed.error_message ≠ none) ∧
    (c2Failed.status = .completed → c2Failed.result_data ≠ none) :=
  C2_terminal_payload_amended c2Env c2Task 5 c2Failed (by decide)

/-- C3 (counterexample): the claim "no operation applied to a record whose
status is COMPLETED or FAILED changes its status again" is false.  The worker
operation sets the record to PROCESSING unconditionally (tasks.py:521) — no
status-writing operation of the pipeline checks the current status — so
applied to an already-COMPLETED record (a re-delivered or re-enqueued task
id) its first commit changes the terminal status back to PROCESSING, and the
observed sequence [COMPLETED, PROCESSING, COMPLETED] is a prefix of neither
allowed sequence. -/
theorem C3_terminal_reprocessed_counterexample :
    c3Task.status = .completed ∧
    (run_resume_optimization c3Env c3Task 5).map (·.status)
        = [.processing, .completed] ∧
    statusTraceAllowed
        (c3Task.status :: (run_resume_optimization c3Env c3Task 5).map (·.status))
      = false := by
  decide

/-- C3 (amended): applied once to a PENDING record, the worker operation
commits PROCESSING and then exactly one of COMPLETED or FAILED, whatever the
collaborators do — the observed status sequence is [PENDING, PROCESSING,
COMPLETED] or [PENDING, PROCESSING, FAILED], and in particular no operation
moves a record from PROCESSING back to PENDING.  (The terminal-immutability
half of the claim fails because the operations carry no terminal guard; see
the counterexample.) -/
theorem C3_monotonic_from_pending_amended (env : ResumeEnv)
    (task : ProcessingTask) (now : Nat) (h : task.status = .pending) :
    statusTraceAllowed
        (task.status :: (run_resume_optimization env task now).map (·.status))
      = true := by
  cases hx : env.extractText with
  | error e =>
    have ht : (run_resume_optimization env task now).map (·.status)
        = [.processing, .failed] := by
      simp [run_resume_optimization, hx]
    rw [ht, h]
    decide
  | ok text_content =>
    have ht : (run_resume_optimization env task now).map (·.status)
        = [.processing, .completed] := by
      simp [run_resume_optimization, hx]
    rw [ht, h]
    decide

/-- C3 witness: one application of the worker operation to a fresh PENDING
record commits the allowed sequence [PENDING, PROCESSING, COMPLETED]. -/
theorem C3_monotonic_from_pending_amended_witness :
    statusTraceAllowed
        (c3Pending.status :: (run_resume_optimization c3Env c3Pending 5).map (·.status))
      = true :=
  C3_monotonic_from_pending_amended c3Env c3Pending 5 (by decide)

/-- C7: with a well-formed task id, the poll operation fails 404 whenever no
record with that id exists, and fails 403 whenever the record found has a
different owner; the handler is a pure read — it returns only the error and
leaves the store untouched. -/
theorem C7_not_found_forbidden (db : List ProcessingTask) (task_id : String)
    (userId u : Nat) (hu : parseUUID task_id = some u) :
    ((∀ t ∈ db, t.id ≠ u) →
      get_task_status db task_id userId
        = .error { status_code := 404, detail := "Task not found" }) ∧
    (∀ t, db.find? (fun x => x.id == u) = some t → t.user_id ≠ userId →
      get_task_status db task_id userId
        = .error { status_code := 403,
                   detail := "Access denied: This task belongs to another user" }) := by
  constructor
  · intro hall
    have hfind : db.find? (fun x => x.id == u) = none :=
      List.find?_eq_none.mpr (fun x hx => by simpa using hall x hx)
    simp only [get_task_status, hu, hfind]
  · intro t hfind hne
    simp only [get_task_status, hu, hfind]
    rw [if_pos hne]

/-- C7 witness: on an empty store the poll of a valid UUID yields 404; on a
store holding a record of user 9, a poll by user 1 yields 403. -/
theorem C7_not_found_forbidden_witness :
    get_task_status [] "12345678-1234-5678-1234-567812345678" 1
        = .error { status_code := 404, detail := "Task not found" } ∧
    get_task_status [c7Task] "12345678-1234-5678-1234-567812345678" 1
        = .error { status_code := 403,
                   detail := "Access denied: This task belongs to another user" } := by
  have h1 := C7_not_found_forbidden [] "12345678-1234-5678-1234-567812345678" 1
    0x12345678123456781234567812345678 (by decide)
  have h2 := C7_not_found_forbidden [c7Task] "12345678-1234-5678-1234-567812345678" 1
    0x12345678123456781234567812345678 (by decide)
  exact ⟨h1.1 (by simp), h2.2 c7Task (by decide) (by decide)⟩

/-- C8: the progress percentage returned by a successful poll is exactly the
spec's pure function of the record's status — PENDING to 0, PROCESSING to 50,
COMPLETED to 100, FAILED to 0 — for every record. -/
theorem C8_progress_projection (db : List ProcessingTask) (task_id : String)
    (userId u : Nat) (t : ProcessingTask)
    (hu : parseUUID task_id = some u)
    (hf : db.find? (fun x => x.id == u) = some t)
    (ho : t.user_id = userId) :
    ∃ r, get_task_status db task_id userId = .ok r ∧
      r.progress_percentage = some (progressSpec t.status) := by
  simp only [get_task_status, hu, hf]
  rw [if_neg (by simp [ho])]
  refine ⟨_, rfl, ?_⟩
  cases hst : t.status <;> simp [hst, progressSpec]

/-- C8 witness: polling a PROCESSING record returns progress 50. -/
theorem C8_progress_projection_witness :
    ∃ r, get_task_status [c8Task] "00000000-0000-0000-0000-0000000000ff" 3 = .ok r ∧
      r.progress_percentage = some (progressSpec c8Task.status) :=
  C8_progress_projection [c8Task] "00000000-0000-0000-0000-0000000000ff" 3 0xff
    c8Task (by decide) (by decide) (by decide)

theorem length_insertDesc (t : ProcessingTask) (l : List ProcessingTask) :
    (insertDesc t l).length = l.length + 1 := by
  induction l with
  | nil => rfl
  | cons x xs ih =>
    simp only [insertDesc]
    split
    · simp [ih]
    · simp

theorem length_sortByCreatedDesc (l : List ProcessingTask) :
    (sortByCreatedDesc l).length = l.length := by
  induction l with
  | nil => rfl
  | cons t ts ih => simp [sortByCreatedDesc, length_insertDesc, ih]

theorem list_user_tasks_ok (db : List ProcessingTask) (userId limit offset : Nat)
    (sf : Option String) (r : TaskListResponse)
    (h : list_user_tasks db userId limit offset sf = .ok r) :
    r = { tasks := (((sortByCreatedDesc (matchingTasks db userId sf)).drop offset).take
            limit).map toSummary,
          total := ((((sortByCreatedDesc (matchingTasks db userId sf)).drop offset).take
            limit).map toSummary).length } := by
  cases sf with
  | none =>
    simp only [list_user_tasks, matchingTasks, Except.ok.injEq] at h
    exact h.symm
  | some s =>
    by_cases hs : s = ""
    · subst hs
      simp only [list_user_tasks, matchingTasks, eq_self_iff_true, if_true,
        Except.ok.injEq] at h ⊢
      exact h.symm
    · cases hps : parseStatus s with
      | none =>
        simp [list_user_tasks, hs, hps] at h
      | some st =>
        simp only [list_user_tasks, matchingTasks, hps, hs, if_false,
          Except.ok.injEq] at h ⊢
        exact h.symm

/-- C10: the "total" field of the list endpoint equals the number of task
summaries in the returned page — after the status filter, LIMIT and OFFSET —
and not the owner's full matching count: with the default offset 0, whenever
the owner has strictly more matching tasks than the limit, total equals the
limit (and so differs from the matching count). -/
theorem C10_total_is_page_size (db : List ProcessingTask) (userId limit offset : Nat)
    (sf : Option String) (r : TaskListResponse)
    (h : list_user_tasks db userId limit offset sf = .ok r) :
    r.total = r.tasks.length ∧
    (offset = 0 → limit < (matchingTasks db userId sf).length →
      r.total = limit ∧ r.total ≠ (matchingTasks db userId sf).length) := by
  have hr := list_user_tasks_ok db userId limit offset sf r h
  subst hr
  refine ⟨rfl, ?_⟩
  intro hoff hlim
  subst hoff
  have hlen : (((((sortByCreatedDesc (matchingTasks db userId sf)).drop 0).take
      limit).map toSummary).length) = limit := by
    rw [List.length_map, List.length_take, List.drop_zero, length_sortByCreatedDesc]
    exact Nat.min_eq_left (le_of_lt hlim)
  constructor
  · exact hlen
  · show ((((sortByCreatedDesc (matchingTasks db userId sf)).drop 0).take
        limit).map toSummary).length ≠ (matchingTasks db userId sf).length
    rw [hlen]
    omega

/-- C10 witness: an owner with three matching tasks listed with limit 2 and
offset 0 receives total = 2, the page size, not 3, the matching count. -/
theorem C10_total_is_page_size_witness :
    c10resp.total = c10resp.tasks.length ∧
    c10resp.total = 2 ∧ c10resp.total ≠ (matchingTasks c10db 1 none).length := by
  have h : list_user_tasks c10db 1 2 0 none = .ok c10resp := by decide
  have hc := C10_total_is_page_size c10db 1 2 0 none c10resp h
  exact ⟨hc.1, (hc.2 rfl (by decide)).1, (hc.2 rfl (by decide)).2⟩
